import Mathlib

/-!
Verification of the property-analysis, fetch-retry and quota/usage core of the
real-estate dashboard.  The Python sources `utils/property_analysis.py`,
`utils/rentcast_api.py`, `utils/usage.py` and `pages/property_search.py` are
shallowly embedded: numbers are exact rationals, machine effects (HTTP
responses, store queries, log writes) are passed in as explicit oracles, and
each embedded definition keeps the name and branch structure of its source
function.
-/

/-- Round-half-to-even on rationals, the tie-breaking rule of the rounding
builtin used by `property_analysis.py`. -/
def roundHalfEven (y : ℚ) : ℤ :=
  let f := Int.floor y
  if y - f < 1/2 then f
  else if y - f > 1/2 then f + 1
  else if f % 2 = 0 then f else f + 1

/-- Rounding to two decimal places, as applied to every monetary value and
percentage in `property_analysis.py`. -/
def round2 (x : ℚ) : ℚ := (roundHalfEven (x * 100) : ℚ) / 100

/-- The `yearBuilt` entry of a raw property record: missing, a number, or a
value of some non-numeric type (the source distinguishes all three through
`dict.get` defaults and `isinstance` checks). -/
inductive YearBuilt
  | absent
  | num (n : ℤ)
  | nonNum
deriving DecidableEq

/-- The fields of a raw provider record that the analysis pipeline reads.
`rentEstimate` is `some r` exactly when the JSON value is a dict carrying a
numeric `rent` field r; every other shape is read as 0 by the source.
Display-only fields (address, beds/baths, features, ...) are omitted. -/
structure PropertyData where
  price : Option ℚ
  lastSalePrice : Option ℚ
  rentEstimate : Option ℚ
  squareFootage : Option ℚ
  yearBuilt : YearBuilt
deriving DecidableEq

/-- The price the calculator works with:
`data.get('price', 0) or data.get('lastSalePrice', 0)` — the second operand
is used when the first is falsy (missing or zero). -/
def effective_price (data : PropertyData) : ℚ :=
  if data.price.getD 0 ≠ 0 then data.price.getD 0 else data.lastSalePrice.getD 0

/-- Result dictionary of `calculate_financial_metrics`. -/
structure FinancialMetrics where
  price : ℚ
  monthly_rent : ℚ
  annual_rent : ℚ
  cap_rate : ℚ
  price_to_rent : ℚ
  estimated_cash_flow : ℚ
  roi_estimate : ℚ
deriving DecidableEq

/-- `calculate_financial_metrics` (property_analysis.py lines 36-68).  The
guard `if price and rent_estimate` is Python truthiness, hence nonzero-ness
of both numbers. -/
def calculate_financial_metrics (data : PropertyData) : FinancialMetrics :=
  let price := effective_price data
  let rent_estimate := data.rentEstimate.getD 0
  if price ≠ 0 ∧ rent_estimate ≠ 0 then
    let monthly_rent := rent_estimate
    let annual_rent := monthly_rent * 12
    let cap_rate := if price > 0 then annual_rent / price * 100 else 0
    let price_to_rent := if annual_rent > 0 then price / annual_rent else 0
    let cash_flow := monthly_rent - price * (0.004 : ℚ)
    { price := price
      monthly_rent := monthly_rent
      annual_rent := annual_rent
      cap_rate := round2 cap_rate
      price_to_rent := round2 price_to_rent
      estimated_cash_flow := round2 cash_flow
      roi_estimate :=
        if price > 0 then round2 (cash_flow * 12 / (price * (0.2 : ℚ)) * 100) else 0 }
  else
    { price := price
      monthly_rent := rent_estimate
      annual_rent := rent_estimate * 12
      cap_rate := 0
      price_to_rent := 0
      estimated_cash_flow := 0
      roi_estimate := 0 }

/-- The `price_per_sqft` entry of `perform_market_analysis`:
`round(price / sqft, 2) if data.get('squareFootage') else 0`; the guard is
truthiness, so missing and zero square footage both yield 0. -/
def price_per_sqft (data : PropertyData) : ℚ :=
  match data.squareFootage with
  | none => 0
  | some s => if s = 0 then 0 else round2 (data.price.getD 0 / s)

/-- `determine_market_status` (lines 82-92); note its price-per-sqft is the
unrounded quotient, guarded by the same truthiness test. -/
def determine_market_status (data : PropertyData) : String :=
  let pps : ℚ :=
    match data.squareFootage with
    | none => 0
    | some s => if s = 0 then 0 else data.price.getD 0 / s
  if pps > 200 then "Hot Market"
  else if pps > 100 then "Balanced Market"
  else "Buyer\x27s Market"

/-- The property age computed inside `analyze_appreciation_potential`:
`year_built = data.get('yearBuilt', 2000)` then
`current_year - year_built if isinstance(year_built, int) else 20`.
A missing `yearBuilt` takes the default 2000, which is an int, so the age is
`current_year - 2000` there; only a present non-numeric value gives 20. -/
def appreciation_property_age (current_year : ℤ) (data : PropertyData) : ℤ :=
  match data.yearBuilt with
  | YearBuilt.num n => current_year - n
  | YearBuilt.absent => current_year - 2000
  | YearBuilt.nonNum => 20

/-- `analyze_appreciation_potential` (lines 94-105).  The wall-clock year is
passed in explicitly. -/
def analyze_appreciation_potential (current_year : ℤ) (data : PropertyData) : String :=
  let property_age := appreciation_property_age current_year data
  if property_age < 10 then "High"
  else if property_age < 30 then "Moderate"
  else "Low"

/-- Result of `perform_market_analysis` (the display-only `neighborhood`
entry is omitted). -/
structure MarketAnalysis where
  price_per_sqft : ℚ
  market_status : String
  appreciation_potential : String
deriving DecidableEq

/-- `perform_market_analysis` (lines 70-80). -/
def perform_market_analysis (current_year : ℤ) (data : PropertyData) : MarketAnalysis :=
  { price_per_sqft := price_per_sqft data
    market_status := determine_market_status data
    appreciation_potential := analyze_appreciation_potential current_year data }

/-- The property age computed inside `calculate_investment_score` (line 157):
`current_year - data.get('yearBuilt', 2000) if isinstance(data.get('yearBuilt'), int) else 20`.
Here the `isinstance` test is on the raw lookup without default, so a missing
`yearBuilt` yields 20 — unlike `appreciation_property_age`. -/
def score_property_age (current_year : ℤ) (data : PropertyData) : ℤ :=
  match data.yearBuilt with
  | YearBuilt.num n => current_year - n
  | _ => 20

/-- Cap-rate rule of the scorer (lines 116-126): points added and the factor
label appended, if any. -/
def cap_rate_scoring (cap_rate : ℚ) : ℤ × Option String :=
  if cap_rate > 8 then (25, some "Excellent cap rate")
  else if cap_rate > 6 then (15, some "Good cap rate")
  else if cap_rate > 4 then (10, some "Fair cap rate")
  else (0, none)

/-- Cash-flow rule of the scorer (lines 128-138). -/
def cash_flow_scoring (cash_flow : ℚ) : ℤ × Option String :=
  if cash_flow > 300 then (25, some "Strong cash flow")
  else if cash_flow > 100 then (15, some "Positive cash flow")
  else if cash_flow > 0 then (10, some "Break-even cash flow")
  else (0, none)

/-- Market-status rule of the scorer (lines 140-146). -/
def market_status_scoring (status : String) : ℤ × Option String :=
  if status = "Buyer\x27s Market" then (20, some "Favorable market conditions")
  else if status = "Balanced Market" then (15, some "Stable market conditions")
  else (0, none)

/-- Appreciation rule of the scorer (lines 148-154). -/
def appreciation_scoring (pot : String) : ℤ × Option String :=
  if pot = "High" then (15, some "High appreciation potential")
  else if pot = "Moderate" then (10, some "Moderate appreciation potential")
  else (0, none)

/-- Age rule of the scorer (lines 156-163). -/
def age_scoring (property_age : ℤ) : ℤ × Option String :=
  if property_age < 10 then (15, some "New property")
  else if property_age < 30 then (10, some "Well-maintained age")
  else (0, none)

/-- Grade and recommendation chain of the scorer (lines 165-183). -/
def grade_recommendation (score : ℤ) : String × String :=
  if score ≥ 80 then ("A+", "Excellent investment opportunity")
  else if score ≥ 70 then ("A", "Strong investment potential")
  else if score ≥ 60 then ("B+", "Good investment with some caution")
  else if score ≥ 50 then ("B", "Fair investment opportunity")
  else if score ≥ 40 then ("C", "Marginal investment - proceed carefully")
  else ("D", "Poor investment - not recommended")

/-- Result dictionary of `calculate_investment_score`. -/
structure InvestmentScore where
  score : ℤ
  grade : String
  recommendation : String
  positive_factors : List String
deriving DecidableEq

/-- `calculate_investment_score` (lines 107-190): the five rules run in
source order, the points accumulate, the labels append in the same order. -/
def calculate_investment_score (current_year : ℤ) (data : PropertyData) : InvestmentScore :=
  let metrics := calculate_financial_metrics data
  let market := perform_market_analysis current_year data
  let cap := cap_rate_scoring metrics.cap_rate
  let cash := cash_flow_scoring metrics.estimated_cash_flow
  let mkt := market_status_scoring market.market_status
  let appr := appreciation_scoring market.appreciation_potential
  let age := age_scoring (score_property_age current_year data)
  let score := cap.1 + cash.1 + mkt.1 + appr.1 + age.1
  let factors := cap.2.toList ++ cash.2.toList ++ mkt.2.toList ++ appr.2.toList ++ age.2.toList
  let gr := grade_recommendation score
  { score := score
    grade := gr.1
    recommendation := gr.2
    positive_factors := factors }

example : round2 (0.125 : ℚ) = 0.12 := by norm_num [round2, roundHalfEven]

example : round2 (0.135 : ℚ) = 0.14 := by norm_num [round2, roundHalfEven]

/-- One provider interaction as seen by `fetch_property_data`
(rentcast_api.py lines 34-93): an HTTP status class or a raised
timeout/connection error. -/
inductive ProviderResp
  | ok (body : List PropertyData)
  | unauthorized
  | rateLimited
  | serverError
  | otherStatus
  | timeout
  | connError
deriving DecidableEq

/-- The outcomes the retry loop treats as transient (429, 5xx, timeout,
network error). -/
def isTransient : ProviderResp → Bool
  | ProviderResp.rateLimited => true
  | ProviderResp.serverError => true
  | ProviderResp.timeout => true
  | ProviderResp.connError => true
  | _ => false

/-- `max_retries = 3` (rentcast_api.py line 31). -/
def max_retries : ℕ := 3

/-- Observable result of one `fetch_property_data` call: the returned value,
how many provider attempts were issued, and the argument of each
`time.sleep` in order. -/
structure FetchTrace where
  result : Option PropertyData
  attempts : ℕ
  sleeps : List ℕ
deriving DecidableEq

/-- The `for attempt in range(max_retries)` loop of `fetch_property_data`,
with `remaining = max_retries - attempt` driving the recursion.  The provider
oracle gives attempt `i` its outcome.  A transient outcome on a non-final
attempt sleeps `retry_delay` seconds and doubles it; terminal outcomes return
at once; falling off the loop returns no record (line 95). -/
def fetch_go (responses : ℕ → ProviderResp) :
    ℕ → ℕ → ℕ → List ℕ → FetchTrace
  | 0, attempt, _, sleeps => ⟨none, attempt, sleeps⟩
  | remaining + 1, attempt, retry_delay, sleeps =>
    match responses attempt with
    | ProviderResp.ok [] => ⟨none, attempt + 1, sleeps⟩
    | ProviderResp.ok (r :: _) => ⟨some r, attempt + 1, sleeps⟩
    | ProviderResp.unauthorized => ⟨none, attempt + 1, sleeps⟩
    | ProviderResp.otherStatus => ⟨none, attempt + 1, sleeps⟩
    | ProviderResp.rateLimited | ProviderResp.serverError
    | ProviderResp.timeout | ProviderResp.connError =>
      if attempt < max_retries - 1 then
        fetch_go responses remaining (attempt + 1) (retry_delay * 2) (sleeps ++ [retry_delay])
      else ⟨none, attempt + 1, sleeps⟩

/-- `fetch_property_data` (rentcast_api.py lines 13-95): missing config
returns None before any attempt; otherwise the loop starts at attempt 0 with
`retry_delay = 1`.  (The successful path also stamps bookkeeping keys —
fetch timestamp, search params, cache key — onto the returned dict; those
keys are outside the modelled record fields.) -/
def fetch_property_data (config_ok : Bool) (responses : ℕ → ProviderResp) : FetchTrace :=
  if config_ok then fetch_go responses max_retries 0 1 [] else ⟨none, 0, []⟩

/-- One row of the `api_usage` store, with the creation time abstracted to an
ordered stamp. -/
structure ApiUsageRecord where
  user_id : ℕ
  created_at : ℕ
deriving DecidableEq

/-- The quota summary returned by `get_user_usage` (usage.py lines 9-52);
`by_type` and `daily_usage` are analytics the search flow never reads and are
omitted. -/
structure UsageData where
  current_month : ℕ
  total : ℕ
  limit : ℕ
deriving DecidableEq

/-- `get_user_usage` (usage.py lines 9-52): no client or a failing query
falls back to `{current_month 0, total 0, limit 30}`; otherwise the current
month count filters the rows of the user at or after the start of the month and
the total counts every row of the user.  `limit` is 30 on every path. -/
def get_user_usage (supabase_ok : Bool) (query_fails : Bool)
    (store : List ApiUsageRecord) (start_month : ℕ) (user_id : ℕ) : UsageData :=
  if supabase_ok = false then ⟨0, 0, 30⟩
  else if query_fails then ⟨0, 0, 30⟩
  else
    let current := store.filter fun r => decide (r.user_id = user_id ∧ start_month ≤ r.created_at)
    let total := store.filter fun r => decide (r.user_id = user_id)
    ⟨current.length, total.length, 30⟩

/-- What one `log_usage` call (usage.py lines 64-85) does: `raised` is the
exception it lets escape to its caller — `none` on every path, because a
missing client returns early and the insert sits in a try/except whose
handler only warns. -/
structure LogResult where
  raised : Option String
  warned : Bool
  inserted : Bool
deriving DecidableEq

/-- `log_usage`: the insert oracle `insert_fails` says whether
`supabase.table("api_usage").insert(...).execute()` raises. -/
def log_usage (supabase_ok : Bool) (insert_fails : Bool) : LogResult :=
  if supabase_ok = false then ⟨none, false, false⟩
  else if insert_fails then ⟨none, true, false⟩
  else ⟨none, false, true⟩

/-- Externally visible effects of the search flow, in program order. -/
inductive Event
  | quotaCheck
  | providerCall
  | logAttempt
deriving DecidableEq

/-- How one submitted search ends. -/
inductive SearchOutcome
  | emptyAddress
  | badAddress
  | quotaDenied
  | found (rec : PropertyData)
  | notFound
deriving DecidableEq

/-- Trace of one submitted search: its outcome, the effect events in order,
and the result of the log write when one was attempted. -/
structure SearchTrace where
  outcome : SearchOutcome
  events : List Event
  log : Option LogResult
deriving DecidableEq

/-- The search-execution path of `display_property_search`
(property_search.py lines 33-98): empty address and unparseable address
return before the quota check; `current_month >= limit` errors out before
`fetch_property_data` is reached; otherwise the provider is called, and on a
returned record `log_usage` runs inside its own try/except before the record
is displayed and kept.  The fetch outcome is the oracle `fetch_result`. -/
def display_property_search (address_nonempty : Bool) (parse_ok : Bool)
    (usage : UsageData) (fetch_result : Option PropertyData)
    (supabase_ok : Bool) (insert_fails : Bool) : SearchTrace :=
  if address_nonempty = false then ⟨SearchOutcome.emptyAddress, [], none⟩
  else if parse_ok = false then ⟨SearchOutcome.badAddress, [], none⟩
  else if usage.current_month ≥ usage.limit then
    ⟨SearchOutcome.quotaDenied, [Event.quotaCheck], none⟩
  else
    match fetch_result with
    | some rec =>
      ⟨SearchOutcome.found rec,
       [Event.quotaCheck, Event.providerCall, Event.logAttempt],
       some (log_usage supabase_ok insert_fails)⟩
    | none =>
      ⟨SearchOutcome.notFound, [Event.quotaCheck, Event.providerCall], none⟩

/-- Grade table as the spec states it in section 4.5, for comparison with
the scorer. -/
def spec_grade (score : ℤ) : String :=
  if score ≥ 80 then "A+"
  else if score ≥ 70 then "A"
  else if score ≥ 60 then "B+"
  else if score ≥ 50 then "B"
  else if score ≥ 40 then "C"
  else "D"

/-- Fixed recommendation attached to each grade, as the spec states it. -/
def spec_recommendation (grade : String) : String :=
  if grade = "A+" then "Excellent investment opportunity"
  else if grade = "A" then "Strong investment potential"
  else if grade = "B+" then "Good investment with some caution"
  else if grade = "B" then "Fair investment opportunity"
  else if grade = "C" then "Marginal investment - proceed carefully"
  else "Poor investment - not recommended"

/-- A record with price 500000, rent 3500, and market/age inputs that max the
remaining score categories (price per sqft 50, built 4 years before 2025). -/
def sample_high : PropertyData :=
  { price := some 500000
    lastSalePrice := none
    rentEstimate := some 3500
    squareFootage := some 10000
    yearBuilt := YearBuilt.num 2021 }

/-- A record whose square footage is negative: Python truthiness lets it
through the division guard. -/
def neg_sqft_sample : PropertyData :=
  { price := some 100000
    lastSalePrice := none
    rentEstimate := none
    squareFootage := some (-100)
    yearBuilt := YearBuilt.absent }

/-- A record with no `yearBuilt` entry. -/
def absent_year_sample : PropertyData :=
  { price := none
    lastSalePrice := none
    rentEstimate := none
    squareFootage := none
    yearBuilt := YearBuilt.absent }

lemma cap_rate_scoring_bounds (x : ℚ) :
    0 ≤ (cap_rate_scoring x).1 ∧ (cap_rate_scoring x).1 ≤ 25 := by
  unfold cap_rate_scoring; split_ifs <;> norm_num

lemma cash_flow_scoring_bounds (x : ℚ) :
    0 ≤ (cash_flow_scoring x).1 ∧ (cash_flow_scoring x).1 ≤ 25 := by
  unfold cash_flow_scoring; split_ifs <;> norm_num

lemma market_status_scoring_bounds (s : String) :
    0 ≤ (market_status_scoring s).1 ∧ (market_status_scoring s).1 ≤ 20 := by
  unfold market_status_scoring; split_ifs <;> norm_num

lemma appreciation_scoring_bounds (s : String) :
    0 ≤ (appreciation_scoring s).1 ∧ (appreciation_scoring s).1 ≤ 15 := by
  unfold appreciation_scoring; split_ifs <;> norm_num

lemma age_scoring_bounds (n : ℤ) :
    0 ≤ (age_scoring n).1 ∧ (age_scoring n).1 ≤ 15 := by
  unfold age_scoring; split_ifs <;> norm_num

lemma cap_rate_scoring_label (x : ℚ) (s : String)
    (h : (cap_rate_scoring x).2 = some s) :
    s ∈ (["Excellent cap rate", "Good cap rate", "Fair cap rate"] : List String) := by
  unfold cap_rate_scoring at h; split_ifs at h <;> simp_all

lemma cash_flow_scoring_label (x : ℚ) (s : String)
    (h : (cash_flow_scoring x).2 = some s) :
    s ∈ (["Strong cash flow", "Positive cash flow", "Break-even cash flow"] : List String) := by
  unfold cash_flow_scoring at h; split_ifs at h <;> simp_all

lemma market_status_scoring_label (t : String) (s : String)
    (h : (market_status_scoring t).2 = some s) :
    s ∈ (["Favorable market conditions", "Stable market conditions"] : List String) := by
  unfold market_status_scoring at h; split_ifs at h <;> simp_all

lemma appreciation_scoring_label (t : String) (s : String)
    (h : (appreciation_scoring t).2 = some s) :
    s ∈ (["High appreciation potential", "Moderate appreciation potential"] : List String) := by
  unfold appreciation_scoring at h; split_ifs at h <;> simp_all

lemma age_scoring_label (n : ℤ) (s : String)
    (h : (age_scoring n).2 = some s) :
    s ∈ (["New property", "Well-maintained age"] : List String) := by
  unfold age_scoring at h; split_ifs at h <;> simp_all

lemma spec_recommendation_eval :
    spec_recommendation "A+" = "Excellent investment opportunity"
    ∧ spec_recommendation "A" = "Strong investment potential"
    ∧ spec_recommendation "B+" = "Good investment with some caution"
    ∧ spec_recommendation "B" = "Fair investment opportunity"
    ∧ spec_recommendation "C" = "Marginal investment - proceed carefully"
    ∧ spec_recommendation "D" = "Poor investment - not recommended" := by
  refine ⟨?_, ?_, ?_, ?_, ?_, ?_⟩ <;> decide

lemma grade_recommendation_spec (score : ℤ) :
    (grade_recommendation score).1 = spec_grade score
    ∧ (grade_recommendation score).2 = spec_recommendation (grade_recommendation score).1
    ∧ (grade_recommendation score).1 ∈ (["A+", "A", "B+", "B", "C", "D"] : List String) := by
  unfold grade_recommendation spec_grade
  split_ifs <;> simp [spec_recommendation_eval]

/-- Claim C3: for positive price and rent the financial metrics are the
stated formulas rounded to two decimals, and on price 500000 with rent 3500
the cap rate is 8.4 (scored "Excellent cap rate", +25), the cash flow is
1500 (scored "Strong cash flow", +25), and with market and age inputs that
max the remaining categories the total is 100 with grade "A+". -/
theorem financial_formulas_and_max_score :
    (∀ (d : PropertyData) (p r : ℚ),
      d.price = some p → 0 < p → d.rentEstimate = some r → 0 < r →
      (calculate_financial_metrics d).cap_rate = round2 (r * 12 / p * 100)
      ∧ (calculate_financial_metrics d).estimated_cash_flow
          = round2 (r - p * (0.004 : ℚ))
      ∧ (calculate_financial_metrics d).roi_estimate
          = round2 ((r - p * (0.004 : ℚ)) * 12 / (p * (0.2 : ℚ)) * 100))
    ∧ (calculate_financial_metrics sample_high).cap_rate = 8.4
    ∧ cap_rate_scoring (8.4 : ℚ) = (25, some "Excellent cap rate")
    ∧ (calculate_financial_metrics sample_high).estimated_cash_flow = 1500
    ∧ cash_flow_scoring (1500 : ℚ) = (25, some "Strong cash flow")
    ∧ calculate_investment_score 2025 sample_high =
        { score := 100
          grade := "A+"
          recommendation := "Excellent investment opportunity"
          positive_factors := ["Excellent cap rate", "Strong cash flow",
            "Favorable market conditions", "High appreciation potential",
            "New property"] } := by
  refine ⟨?_, ?_, ?_, ?_, ?_, ?_⟩
  · intro d p r hp hp0 hr hr0
    have h1 : effective_price d = p := by
      simp [effective_price, hp, ne_of_gt hp0]
    simp only [calculate_financial_metrics, h1, hr, Option.getD_some]
    rw [if_pos ⟨ne_of_gt hp0, ne_of_gt hr0⟩]
    simp [if_pos hp0]
  · norm_num [calculate_financial_metrics, effective_price, sample_high, round2, roundHalfEven]
  · norm_num [cap_rate_scoring]
  · norm_num [calculate_financial_metrics, effective_price, sample_high, round2, roundHalfEven]
  · norm_num [cash_flow_scoring]
  · norm_num [calculate_investment_score, calculate_financial_metrics, effective_price,
      perform_market_analysis, price_per_sqft, determine_market_status,
      analyze_appreciation_potential, appreciation_property_age, score_property_age,
      cap_rate_scoring, cash_flow_scoring, market_status_scoring, appreciation_scoring,
      age_scoring, grade_recommendation, sample_high, round2, roundHalfEven]

/-- A record whose price entry is zero but whose lastSalePrice is 300000. -/
def zero_price_fallback_sample : PropertyData :=
  { price := some 0
    lastSalePrice := some 300000
    rentEstimate := some 1500
    squareFootage := none
    yearBuilt := YearBuilt.absent }

/-- Claim C4 as stated is false: a zero price entry falls back to
lastSalePrice (`price or lastSalePrice` truthiness), so with price 0,
lastSalePrice 300000 and rent 1500 the guard passes and the metrics are
nonzero — cap rate 6 and cash flow 300, not 0. -/
theorem zero_price_fallback_counterexample :
    zero_price_fallback_sample.price = some 0
    ∧ (calculate_financial_metrics zero_price_fallback_sample).cap_rate = 6
    ∧ (calculate_financial_metrics zero_price_fallback_sample).cap_rate ≠ 0
    ∧ (calculate_financial_metrics zero_price_fallback_sample).estimated_cash_flow = 300
    ∧ (calculate_financial_metrics zero_price_fallback_sample).roi_estimate = 6 := by
  refine ⟨rfl, ?_, ?_, ?_, ?_⟩ <;>
    norm_num [calculate_financial_metrics, effective_price, zero_price_fallback_sample,
      round2, roundHalfEven]

/-- Claim C4 amended: the zero branch is keyed to the effective price —
price with the lastSalePrice fallback — not to the price entry alone.  When
that effective price is zero (both entries zero or missing) or the rent is
zero or missing, the calculator returns cap rate, price-to-rent ratio, cash
flow and ROI all 0, with no division performed. -/
theorem zero_price_or_rent_gives_zero_metrics (d : PropertyData)
    (h : effective_price d = 0 ∨ d.rentEstimate.getD 0 = 0) :
    (calculate_financial_metrics d).cap_rate = 0
    ∧ (calculate_financial_metrics d).price_to_rent = 0
    ∧ (calculate_financial_metrics d).estimated_cash_flow = 0
    ∧ (calculate_financial_metrics d).roi_estimate = 0 := by
  have hcond : ¬ (effective_price d ≠ 0 ∧ d.rentEstimate.getD 0 ≠ 0) := by tauto
  simp only [calculate_financial_metrics]
  rw [if_neg hcond]
  exact ⟨rfl, rfl, rfl, rfl⟩

theorem zero_price_or_rent_gives_zero_metrics_witness :
    (calculate_financial_metrics absent_year_sample).cap_rate = 0
    ∧ (calculate_financial_metrics absent_year_sample).price_to_rent = 0
    ∧ (calculate_financial_metrics absent_year_sample).estimated_cash_flow = 0
    ∧ (calculate_financial_metrics absent_year_sample).roi_estimate = 0 :=
  zero_price_or_rent_gives_zero_metrics absent_year_sample
    (Or.inl (by simp [effective_price, absent_year_sample]))

/-- Claim C5 as stated is false: a negative square footage is truthy, so the
division is performed and the price per sqft is -1000, not 0, even though
squareFootage ≤ 0. -/
theorem price_per_sqft_negative_counterexample :
    neg_sqft_sample.squareFootage = some (-100)
    ∧ ((-100 : ℚ) ≤ 0)
    ∧ price_per_sqft neg_sqft_sample = -1000
    ∧ price_per_sqft neg_sqft_sample ≠ 0 := by
  refine ⟨rfl, by norm_num, ?_, ?_⟩ <;>
    norm_num [price_per_sqft, neg_sqft_sample, round2, roundHalfEven]

/-- Claim C5 amended: price per sqft is 0 exactly when squareFootage is
missing or zero (not for every squareFootage ≤ 0); otherwise it is the
rounded quotient; and squareFootage 0 also yields the market status
labelled as favorable to buyers. -/
theorem price_per_sqft_guard (d : PropertyData) :
    (d.squareFootage = none ∨ d.squareFootage = some 0 → price_per_sqft d = 0)
    ∧ (∀ s : ℚ, d.squareFootage = some s → s ≠ 0 →
        price_per_sqft d = round2 (d.price.getD 0 / s))
    ∧ (d.squareFootage = some 0 → determine_market_status d = "Buyer\x27s Market") := by
  refine ⟨?_, ?_, ?_⟩
  · rintro (h | h) <;> simp [price_per_sqft, h]
  · intro s hs hne
    simp [price_per_sqft, hs, hne]
  · intro h
    norm_num [determine_market_status, h]

theorem price_per_sqft_guard_witness :
    price_per_sqft
      { price := some 100000, lastSalePrice := none, rentEstimate := none,
        squareFootage := some 0, yearBuilt := YearBuilt.absent } = 0
    ∧ determine_market_status
      { price := some 100000, lastSalePrice := none, rentEstimate := none,
        squareFootage := some 0, yearBuilt := YearBuilt.absent } = "Buyer\x27s Market" :=
  ⟨(price_per_sqft_guard _).1 (Or.inr rfl), (price_per_sqft_guard _).2.2 rfl⟩

/-- Claim C6 as stated is false for a missing yearBuilt: the default is the
int 2000, so the age is currentYear - 2000 (26 in 2026), not 20; observably,
in 2035 the code would answer "Low" where an age of 20 answers "Moderate". -/
theorem appreciation_age_absent_counterexample :
    absent_year_sample.yearBuilt = YearBuilt.absent
    ∧ appreciation_property_age 2026 absent_year_sample = 26
    ∧ appreciation_property_age 2026 absent_year_sample ≠ 20
    ∧ analyze_appreciation_potential 2035 absent_year_sample = "Low"
    ∧ (if (20 : ℤ) < 10 then "High" else if (20 : ℤ) < 30 then "Moderate" else "Low")
        = "Moderate" := by
  refine ⟨rfl, ?_, ?_, ?_, by norm_num⟩ <;>
    norm_num [appreciation_property_age, analyze_appreciation_potential, absent_year_sample]

/-- Claim C6 amended: the age is currentYear - yearBuilt for a numeric
yearBuilt, 20 only when yearBuilt is present but non-numeric, and
currentYear - 2000 when yearBuilt is missing (the dict default 2000 is
numeric); the appreciation bands over that age are as stated. -/
theorem appreciation_age_amended (y : ℤ) (d : PropertyData) :
    (∀ n : ℤ, d.yearBuilt = YearBuilt.num n → appreciation_property_age y d = y - n)
    ∧ (d.yearBuilt = YearBuilt.nonNum → appreciation_property_age y d = 20)
    ∧ (d.yearBuilt = YearBuilt.absent → appreciation_property_age y d = y - 2000)
    ∧ analyze_appreciation_potential y d =
        (if appreciation_property_age y d < 10 then "High"
         else if appreciation_property_age y d < 30 then "Moderate"
         else "Low") := by
  refine ⟨?_, ?_, ?_, rfl⟩ <;>
    first
    | intro n h; simp [appreciation_property_age, h]
    | intro h; simp [appreciation_property_age, h]

theorem appreciation_age_amended_witness :
    appreciation_property_age 2025 sample_high = 4
    ∧ appreciation_property_age 2025 absent_year_sample = 25
    ∧ analyze_appreciation_potential 2025 sample_high =
        (if appreciation_property_age 2025 sample_high < 10 then "High"
         else if appreciation_property_age 2025 sample_high < 30 then "Moderate"
         else "Low") := by
  refine ⟨?_, ?_, (appreciation_age_amended 2025 sample_high).2.2.2⟩
  · rw [(appreciation_age_amended 2025 sample_high).1 2021 rfl]; norm_num
  · rw [(appreciation_age_amended 2025 absent_year_sample).2.2.1 rfl]; norm_num

/-- Claim C7: the investment score always lies in [0, 100], the grade is the
fixed threshold function of the score stated by the spec, and the
recommendation is the fixed function of the grade stated by the spec. -/
theorem investment_score_invariants (y : ℤ) (d : PropertyData) :
    (0 ≤ (calculate_investment_score y d).score
      ∧ (calculate_investment_score y d).score ≤ 100)
    ∧ (calculate_investment_score y d).grade
        = spec_grade (calculate_investment_score y d).score
    ∧ (calculate_investment_score y d).recommendation
        = spec_recommendation (calculate_investment_score y d).grade
    ∧ (calculate_investment_score y d).grade ∈ (["A+", "A", "B+", "B", "C", "D"] : List String) := by
  have hc := cap_rate_scoring_bounds (calculate_financial_metrics d).cap_rate
  have hf := cash_flow_scoring_bounds (calculate_financial_metrics d).estimated_cash_flow
  have hm := market_status_scoring_bounds (perform_market_analysis y d).market_status
  have ha := appreciation_scoring_bounds (perform_market_analysis y d).appreciation_potential
  have hg := age_scoring_bounds (score_property_age y d)
  have hgr := grade_recommendation_spec
    ((cap_rate_scoring (calculate_financial_metrics d).cap_rate).1
      + (cash_flow_scoring (calculate_financial_metrics d).estimated_cash_flow).1
      + (market_status_scoring (perform_market_analysis y d).market_status).1
      + (appreciation_scoring (perform_market_analysis y d).appreciation_potential).1
      + (age_scoring (score_property_age y d)).1)
  simp only [calculate_investment_score]
  exact ⟨⟨by omega, by omega⟩, hgr.1, hgr.2.1, hgr.2.2⟩

/-- Claim C8: the positive factors list is the in-order concatenation of at
most one label per category — cap rate, cash flow, market status,
appreciation, age — each drawn from the fixed label table of that category. -/
theorem positive_factors_order (y : ℤ) (d : PropertyData) :
    ∃ o₁ o₂ o₃ o₄ o₅ : Option String,
      (calculate_investment_score y d).positive_factors
        = o₁.toList ++ o₂.toList ++ o₃.toList ++ o₄.toList ++ o₅.toList
      ∧ (∀ s, o₁ = some s →
          s ∈ (["Excellent cap rate", "Good cap rate", "Fair cap rate"] : List String))
      ∧ (∀ s, o₂ = some s →
          s ∈ (["Strong cash flow", "Positive cash flow", "Break-even cash flow"] : List String))
      ∧ (∀ s, o₃ = some s →
          s ∈ (["Favorable market conditions", "Stable market conditions"] : List String))
      ∧ (∀ s, o₄ = some s →
          s ∈ (["High appreciation potential", "Moderate appreciation potential"] : List String))
      ∧ (∀ s, o₅ = some s →
          s ∈ (["New property", "Well-maintained age"] : List String)) := by
  refine ⟨(cap_rate_scoring (calculate_financial_metrics d).cap_rate).2,
    (cash_flow_scoring (calculate_financial_metrics d).estimated_cash_flow).2,
    (market_status_scoring (perform_market_analysis y d).market_status).2,
    (appreciation_scoring (perform_market_analysis y d).appreciation_potential).2,
    (age_scoring (score_property_age y d)).2,
    ?_, ?_, ?_, ?_, ?_, ?_⟩
  · simp only [calculate_investment_score]
  · exact fun s h => cap_rate_scoring_label _ s h
  · exact fun s h => cash_flow_scoring_label _ s h
  · exact fun s h => market_status_scoring_label _ s h
  · exact fun s h => appreciation_scoring_label _ s h
  · exact fun s h => age_scoring_label _ s h

/-- Claim C10: with yearBuilt absent the age derivation of the scorer gives 20 in
every year, hence always the "Well-maintained age" factor and +10 points,
while the appreciation heuristic substitutes 2000 and derives
currentYear - 2000; the two disagree in every year other than 2020. -/
theorem absent_year_two_derivations (y : ℤ) (d : PropertyData)
    (h : d.yearBuilt = YearBuilt.absent) :
    score_property_age y d = 20
    ∧ age_scoring (score_property_age y d) = (10, some "Well-maintained age")
    ∧ appreciation_property_age y d = y - 2000
    ∧ (y ≠ 2020 → appreciation_property_age y d ≠ score_property_age y d) := by
  have h1 : score_property_age y d = 20 := by simp [score_property_age, h]
  have h2 : appreciation_property_age y d = y - 2000 := by
    simp [appreciation_property_age, h]
  refine ⟨h1, ?_, h2, ?_⟩
  · rw [h1]; norm_num [age_scoring]
  · intro hy; rw [h1, h2]; omega

theorem absent_year_two_derivations_witness :
    score_property_age 2026 absent_year_sample = 20
    ∧ age_scoring (score_property_age 2026 absent_year_sample)
        = (10, some "Well-maintained age")
    ∧ appreciation_property_age 2026 absent_year_sample = 26
    ∧ appreciation_property_age 2026 absent_year_sample
        ≠ score_property_age 2026 absent_year_sample := by
  have h := absent_year_two_derivations 2026 absent_year_sample rfl
  refine ⟨h.1, h.2.1, ?_, h.2.2.2 (by norm_num)⟩
  rw [h.2.2.1]; norm_num

lemma fetch_go_transient_step (responses : ℕ → ProviderResp)
    (remaining attempt retry_delay : ℕ) (sleeps : List ℕ)
    (h : isTransient (responses attempt) = true)
    (hlt : attempt < max_retries - 1) :
    fetch_go responses (remaining + 1) attempt retry_delay sleeps
      = fetch_go responses remaining (attempt + 1) (retry_delay * 2)
          (sleeps ++ [retry_delay]) := by
  cases hr : responses attempt <;> simp_all [fetch_go, isTransient]

lemma fetch_go_transient_last (responses : ℕ → ProviderResp)
    (remaining attempt retry_delay : ℕ) (sleeps : List ℕ)
    (h : isTransient (responses attempt) = true)
    (hge : ¬ attempt < max_retries - 1) :
    fetch_go responses (remaining + 1) attempt retry_delay sleeps
      = ⟨none, attempt + 1, sleeps⟩ := by
  cases hr : responses attempt <;> simp_all [fetch_go, isTransient]

/-- The provider oracle that answers HTTP 429 on every attempt. -/
def all_rate_limited : ℕ → ProviderResp := fun _ => ProviderResp.rateLimited

/-- Claim C2 as stated is false in its delay list: under unbroken 429s the
loop makes its 3 attempts but sleeps only twice, 1s then 2s — the 4s delay
is computed into the doubling variable yet never slept, because the third
attempt is the last.  The run still ends with no record. -/
theorem retry_delay_list_counterexample :
    (fetch_property_data true all_rate_limited).sleeps = [1, 2]
    ∧ (fetch_property_data true all_rate_limited).sleeps ≠ [1, 2, 4]
    ∧ (fetch_property_data true all_rate_limited).result = none
    ∧ (fetch_property_data true all_rate_limited).attempts = 3 := by
  refine ⟨rfl, by decide, rfl, rfl⟩

/-- Claim C2 amended: for every all-transient outcome sequence the fetch
makes exactly its cap of 3 attempts, sleeps between consecutive attempts
with delays doubling from 1s — so 1s then 2s, at most two sleeps — and
after exhaustion returns no record. -/
theorem retry_transient_exhaustion (responses : ℕ → ProviderResp)
    (h : ∀ i, i < max_retries → isTransient (responses i) = true) :
    fetch_property_data true responses = ⟨none, 3, [1, 2]⟩ := by
  have h0 := h 0 (by norm_num [max_retries])
  have h1 := h 1 (by norm_num [max_retries])
  have h2 := h 2 (by norm_num [max_retries])
  calc fetch_property_data true responses
      = fetch_go responses (2 + 1) 0 1 [] := rfl
    _ = fetch_go responses (1 + 1) 1 2 [1] :=
        fetch_go_transient_step responses (1 + 1) 0 1 [] h0 (by norm_num [max_retries])
    _ = fetch_go responses (0 + 1) 2 4 [1, 2] :=
        fetch_go_transient_step responses (0 + 1) 1 2 [1] h1 (by norm_num [max_retries])
    _ = ⟨none, 3, [1, 2]⟩ :=
        fetch_go_transient_last responses 0 2 4 [1, 2] h2 (by norm_num [max_retries])

theorem retry_transient_exhaustion_witness :
    fetch_property_data true all_rate_limited = ⟨none, 3, [1, 2]⟩ :=
  retry_transient_exhaustion all_rate_limited (fun _ _ => rfl)

/-- Claim C1: the quota limit reported by `get_user_usage` is 30 on every
path; a search with currentMonthCount at or over the limit is denied with no
provider call; and any provider call in a search trace comes after the quota
check, which therefore passed. -/
theorem quota_check_gates_fetch (sb qf : Bool) (store : List ApiUsageRecord)
    (sm uid : ℕ) (a p : Bool) (usage : UsageData) (fr : Option PropertyData)
    (so insf : Bool) :
    (get_user_usage sb qf store sm uid).limit = 30
    ∧ (usage.current_month ≥ usage.limit →
        Event.providerCall ∉ (display_property_search a p usage fr so insf).events
        ∧ (a = true → p = true →
            (display_property_search a p usage fr so insf).outcome
              = SearchOutcome.quotaDenied))
    ∧ (Event.providerCall ∈ (display_property_search a p usage fr so insf).events →
        (display_property_search a p usage fr so insf).events.head?
          = some Event.quotaCheck
        ∧ usage.current_month < usage.limit) := by
  refine ⟨?_, ?_, ?_⟩
  · unfold get_user_usage; split_ifs <;> rfl
  · intro h
    cases a <;> cases p <;>
      simp_all [display_property_search]
  · intro hmem
    by_cases hq : usage.current_month ≥ usage.limit
    · exfalso
      cases a <;> cases p <;> simp_all [display_property_search]
    · refine ⟨?_, by omega⟩
      cases a <;> cases p <;> cases fr <;>
        simp_all [display_property_search] <;> split <;> rfl

theorem quota_check_gates_fetch_witness :
    Event.providerCall ∉
      (display_property_search true true ⟨30, 30, 30⟩ none true false).events
    ∧ (display_property_search true true ⟨30, 30, 30⟩ none true false).outcome
        = SearchOutcome.quotaDenied :=
  ⟨((quota_check_gates_fetch true false [] 0 0 true true ⟨30, 30, 30⟩ none
      true false).2.1 (by norm_num)).1,
   ((quota_check_gates_fetch true false [] 0 0 true true ⟨30, 30, 30⟩ none
      true false).2.1 (by norm_num)).2 rfl rfl⟩

/-- Claim C9: `log_usage` lets no exception escape on any path, a failing
insert surfaces only as a warning, and a log failure during a search whose
fetch returned a record neither alters nor suppresses that record: the
outcome is the fetched record whether or not the insert fails. -/
theorem log_failure_swallowed (so insf a p : Bool) (usage : UsageData)
    (rec : PropertyData) (hq : usage.current_month < usage.limit)
    (ha : a = true) (hp : p = true) :
    (log_usage so insf).raised = none
    ∧ (so = true → insf = true → (log_usage so insf).warned = true)
    ∧ (display_property_search a p usage (some rec) so insf).outcome
        = SearchOutcome.found rec
    ∧ (display_property_search a p usage (some rec) so insf).outcome
        = (display_property_search a p usage (some rec) so false).outcome := by
  subst ha hp
  have hn : ¬ usage.current_month ≥ usage.limit := by omega
  refine ⟨?_, ?_, ?_, ?_⟩
  · unfold log_usage; split_ifs <;> rfl
  · intro h1 h2; subst h1 h2; rfl
  · simp [display_property_search, hn]
  · simp [display_property_search, hn]

theorem log_failure_swallowed_witness :
    (log_usage true true).raised = none
    ∧ (log_usage true true).warned = true
    ∧ (display_property_search true true ⟨0, 0, 30⟩ (some sample_high) true true).outcome
        = SearchOutcome.found sample_high
    ∧ (display_property_search true true ⟨0, 0, 30⟩ (some sample_high) true true).outcome
        = (display_property_search true true ⟨0, 0, 30⟩ (some sample_high) true false).outcome := by
  have h := log_failure_swallowed true true true true ⟨0, 0, 30⟩ sample_high
    (by norm_num) rfl rfl
  exact ⟨h.1, h.2.1 rfl rfl, h.2.2.1, h.2.2.2⟩
